import Mathlib

/-!
Verification of `bertology_sklearn/data_utils/token_input_data.py`.

The development shallowly embeds the token-classification feature pipeline:
`DataProcessor.get_labels`, `DataProcessor.get_examples` and
`convert_example_to_features`, in both single-label and nested
(multi-label) mode.  Machine integers are modelled as `Int`; Python list
slicing with a possibly negative bound and Python list repetition with a
possibly negative count are modelled explicitly (`pyTake`, `pyReplicate`);
the terminal `assert` statements are modelled by returning `Option`.
The subword tokenizer is an opaque parameter `tok : String → List String`
together with `to_id : String → Int` for `convert_tokens_to_ids`.
-/

namespace BertSk

/-- Python slice `l[:n]` where `n` may be negative
(`l[:-k]` keeps all but the last `k` elements). -/
def pyTake {α : Type} (n : Int) (l : List α) : List α :=
  if 0 ≤ n then l.take n.toNat else l.take (l.length - (-n).toNat)

/-- Python list repetition `[x] * n` where a non-positive `n` yields `[]`. -/
def pyReplicate {α : Type} (n : Int) (x : α) : List α :=
  List.replicate n.toNat x

/-- Keyword arguments of `convert_example_to_features` (source lines 199-211). -/
structure EncodeConfig where
  cls_token_at_end : Bool
  cls_token : String
  cls_token_segment_id : Int
  sep_token : String
  sep_token_extra : Bool
  pad_on_left : Bool
  pad_token : Int
  pad_token_segment_id : Int
  pad_token_label_id : Int
  sequence_a_segment_id : Int
  mask_padding_with_zero : Bool
  deriving DecidableEq

/-- Default keyword arguments of the source function. -/
def defaultConfig : EncodeConfig :=
  ⟨false, "[CLS]", 1, "[SEP]", false, false, 0, 0, -100, 0, true⟩

/-- Single-label `InputExample` (source lines 29-43): parallel word and
label sequences plus an identifier. -/
structure InputExample where
  guid : String
  tokens : List String
  labels : List String
  deriving DecidableEq

/-- Nested-mode `InputExample`: each label slot is a set of label strings. -/
structure NestedExample where
  guid : String
  tokens : List String
  labels : List (List String)
  deriving DecidableEq

/-- The three parallel sequences built by the alignment loop
(`tokens`, `label_ids`, `label_mask`); `α` is `Int` in single-label mode
and `List Int` (a multi-hot vector) in nested mode. -/
structure SeqTriple (α : Type) where
  tokens : List String
  labels : List α
  mask : List Int
  deriving DecidableEq

/-- The four parallel sequences after segment ids are assigned. -/
structure SeqQuad (α : Type) where
  tokens : List String
  labels : List α
  mask : List Int
  segs : List Int
  deriving DecidableEq

/-- Embedding of `InputFeatures` (source lines 57-67): the five parallel output
sequences of one encoded example. -/
structure InputFeatures (α : Type) where
  input_ids : List Int
  attention_mask : List Int
  token_type_ids : List Int
  label_ids : List α
  label_mask : List Int
  deriving DecidableEq

/-- Lookup `label_map[label]` where `label_map` enumerates `label_list`
(source line 160). -/
def labelIdx (label_list : List String) (label : String) : Nat :=
  label_list.indexOf label

/-- Nested-mode multi-hot vector: `label_id = [0]*len(label_map)` followed by
`label_id[label_map[l]] = 1` for each `l` (source lines 225-228). -/
def multiHot (label_list : List String) (labels : List String) : List Int :=
  labels.foldl (fun acc l => acc.set (labelIdx label_list l) 1)
    (List.replicate label_list.length 0)

/-- The nested all-zero label vector `zero_label_id` (source line 216). -/
def zeroLabelId (label_list : List String) : List Int :=
  List.replicate label_list.length 0

/-- Alignment loop of `convert_example_to_features`, single-label mode
(source lines 217-231): for each `(word, label)` pair, tokenize the word;
if it yields at least one piece, extend `tokens` by the pieces, extend
`label_ids` by the real label id followed by zeros, and extend
`label_mask` by `1` followed by `pad_token_label_id` entries. -/
def alignWords (tok : String → List String) (label_list : List String)
    (ptli : Int) : List (String × String) → SeqTriple Int
  | [] => ⟨[], [], []⟩
  | (word, label) :: rest =>
    if 0 < (tok word).length then
      ⟨tok word ++ (alignWords tok label_list ptli rest).tokens,
       ((labelIdx label_list label : Int) ::
         List.replicate ((tok word).length - 1) 0) ++
         (alignWords tok label_list ptli rest).labels,
       ((1 : Int) :: List.replicate ((tok word).length - 1) ptli) ++
         (alignWords tok label_list ptli rest).mask⟩
    else alignWords tok label_list ptli rest

/-- Alignment loop, nested mode (source lines 217-231): the first piece of a
word receives the multi-hot vector of the word's label set, the remaining
pieces receive `zero_label_id`. -/
def alignWordsNested (tok : String → List String) (label_list : List String)
    (ptli : Int) : List (String × List String) → SeqTriple (List Int)
  | [] => ⟨[], [], []⟩
  | (word, label) :: rest =>
    if 0 < (tok word).length then
      ⟨tok word ++ (alignWordsNested tok label_list ptli rest).tokens,
       (multiHot label_list label ::
         List.replicate ((tok word).length - 1) (zeroLabelId label_list)) ++
         (alignWordsNested tok label_list ptli rest).labels,
       ((1 : Int) :: List.replicate ((tok word).length - 1) ptli) ++
         (alignWordsNested tok label_list ptli rest).mask⟩
    else alignWordsNested tok label_list ptli rest

/-- Reserve `special_tokens_count = 3 if sep_token_extra else 2`
(source line 234). -/
def specialTokensCount (extra : Bool) : Nat := if extra then 3 else 2

/-- Truncation step (source lines 235-238): when the expanded length exceeds
`max_seq_length - special_tokens_count`, all three sequences are cut by the
Python slice `[:(max_seq_length - special_tokens_count)]`. -/
def truncateTriple {α : Type} (msl stc : Nat) (st : SeqTriple α) : SeqTriple α :=
  if (st.tokens.length : Int) > (msl : Int) - (stc : Int) then
    ⟨pyTake ((msl : Int) - (stc : Int)) st.tokens,
     pyTake ((msl : Int) - (stc : Int)) st.labels,
     pyTake ((msl : Int) - (stc : Int)) st.mask⟩
  else st

/-- Separator insertion (source lines 241-258): append `sep_token` with the
`<END>` label (`endLab`) and an ignore-mask entry; when `sep_token_extra`,
append a second separator with a neutral label (`zeroLab`). -/
def addSep {α : Type} (cfg : EncodeConfig) (endLab zeroLab : α)
    (st : SeqTriple α) : SeqTriple α :=
  let st1 : SeqTriple α :=
    ⟨st.tokens ++ [cfg.sep_token], st.labels ++ [endLab],
     st.mask ++ [cfg.pad_token_label_id]⟩
  if cfg.sep_token_extra then
    ⟨st1.tokens ++ [cfg.sep_token], st1.labels ++ [zeroLab],
     st1.mask ++ [cfg.pad_token_label_id]⟩
  else st1

/-- Segment-id assignment and classifier-token placement, single-label mode
(source lines 260-282). -/
def addClsSingle (cfg : EncodeConfig) (label_list : List String)
    (st : SeqTriple Int) : SeqQuad Int :=
  let segment_ids := List.replicate st.tokens.length cfg.sequence_a_segment_id
  if cfg.cls_token_at_end then
    ⟨st.tokens ++ [cfg.cls_token], st.labels ++ [0],
     st.mask ++ [cfg.pad_token_label_id],
     segment_ids ++ [cfg.cls_token_segment_id]⟩
  else
    ⟨cfg.cls_token :: st.tokens,
     (labelIdx label_list "<START>" : Int) :: st.labels,
     cfg.pad_token_label_id :: st.mask,
     cfg.cls_token_segment_id :: segment_ids⟩

/-- Segment-id assignment and classifier-token placement, nested mode
(source lines 260-282).  Note the source's asymmetry: with
`cls_token_at_end=False` the classifier token, mask entry and segment id
are prepended, but the `<START>` multi-hot vector is APPENDED to
`label_ids` (source line 279 uses `label_ids.append`). -/
def addClsNested (cfg : EncodeConfig) (label_list : List String)
    (st : SeqTriple (List Int)) : SeqQuad (List Int) :=
  let segment_ids := List.replicate st.tokens.length cfg.sequence_a_segment_id
  if cfg.cls_token_at_end then
    ⟨st.tokens ++ [cfg.cls_token], st.labels ++ [zeroLabelId label_list],
     st.mask ++ [cfg.pad_token_label_id],
     segment_ids ++ [cfg.cls_token_segment_id]⟩
  else
    ⟨cfg.cls_token :: st.tokens,
     st.labels ++ [multiHot label_list ["<START>"]],
     cfg.pad_token_label_id :: st.mask,
     cfg.cls_token_segment_id :: segment_ids⟩

/-- Numeric id resolution, attention mask and padding (source lines 284-311).
`padding_length = max_seq_length - len(input_ids)` may be negative, in which
case `pyReplicate` yields no padding, exactly like Python `[x] * n`. -/
def padSeqs {α : Type} (cfg : EncodeConfig) (msl : Nat) (padLab : α)
    (to_id : String → Int) (q : SeqQuad α) : InputFeatures α :=
  let input_ids := q.tokens.map to_id
  let input_mask :=
    List.replicate input_ids.length
      (if cfg.mask_padding_with_zero then (1 : Int) else 0)
  let padding_length : Int := (msl : Int) - (input_ids.length : Int)
  let padMaskVal : Int := if cfg.mask_padding_with_zero then 0 else 1
  if cfg.pad_on_left then
    ⟨pyReplicate padding_length cfg.pad_token ++ input_ids,
     pyReplicate padding_length padMaskVal ++ input_mask,
     pyReplicate padding_length cfg.pad_token_segment_id ++ q.segs,
     pyReplicate padding_length padLab ++ q.labels,
     pyReplicate padding_length cfg.pad_token_label_id ++ q.mask⟩
  else
    ⟨input_ids ++ pyReplicate padding_length cfg.pad_token,
     input_mask ++ pyReplicate padding_length padMaskVal,
     q.segs ++ pyReplicate padding_length cfg.pad_token_segment_id,
     q.labels ++ pyReplicate padding_length padLab,
     q.mask ++ pyReplicate padding_length cfg.pad_token_label_id⟩

/-- Whole pipeline of `convert_example_to_features` before the `assert`
statements, single-label mode. -/
def encodeSingle (tok : String → List String) (to_id : String → Int)
    (ex : InputExample) (msl : Nat) (label_list : List String)
    (cfg : EncodeConfig) : InputFeatures Int :=
  let st0 := alignWords tok label_list cfg.pad_token_label_id
    (ex.tokens.zip ex.labels)
  let st1 := truncateTriple msl (specialTokensCount cfg.sep_token_extra) st0
  let st2 := addSep cfg (labelIdx label_list "<END>" : Int) 0 st1
  padSeqs cfg msl 0 to_id (addClsSingle cfg label_list st2)

/-- Whole pipeline before the `assert` statements, nested mode. -/
def encodeNested (tok : String → List String) (to_id : String → Int)
    (ex : NestedExample) (msl : Nat) (label_list : List String)
    (cfg : EncodeConfig) : InputFeatures (List Int) :=
  let st0 := alignWordsNested tok label_list cfg.pad_token_label_id
    (ex.tokens.zip ex.labels)
  let st1 := truncateTriple msl (specialTokensCount cfg.sep_token_extra) st0
  let st2 := addSep cfg (multiHot label_list ["<END>"]) (zeroLabelId label_list) st1
  padSeqs cfg msl (zeroLabelId label_list) to_id (addClsNested cfg label_list st2)

/-- Check of the five `assert len(...) == max_seq_length` statements
(source lines 313-317). -/
def lengthsOk {α : Type} (msl : Nat) (fs : InputFeatures α) : Prop :=
  fs.input_ids.length = msl ∧ fs.attention_mask.length = msl ∧
  fs.token_type_ids.length = msl ∧ fs.label_ids.length = msl ∧
  fs.label_mask.length = msl

instance {α : Type} (msl : Nat) (fs : InputFeatures α) :
    Decidable (lengthsOk msl fs) := by
  unfold lengthsOk; infer_instance

/-- Embedding of `convert_example_to_features`, single-label mode
(source lines 199-323):
the record is returned only when all five length assertions hold, an
`AssertionError` being modelled by `none`. -/
def convert_example_to_features (tok : String → List String)
    (to_id : String → Int) (ex : InputExample) (msl : Nat)
    (label_list : List String) (cfg : EncodeConfig) :
    Option (InputFeatures Int) :=
  let fs := encodeSingle tok to_id ex msl label_list cfg
  if lengthsOk msl fs then some fs else none

/-- Embedding of `convert_example_to_features` with `is_nested=True`. -/
def convert_example_to_features_nested (tok : String → List String)
    (to_id : String → Int) (ex : NestedExample) (msl : Nat)
    (label_list : List String) (cfg : EncodeConfig) :
    Option (InputFeatures (List Int)) :=
  let fs := encodeNested tok to_id ex msl label_list cfg
  if lengthsOk msl fs then some fs else none

/-- Ordered insertion without duplicates, the building block used to model
`np.unique` (sorted array of the distinct elements). -/
def insertSortedUnique (x : String) : List String → List String
  | [] => [x]
  | y :: ys =>
    if x = y then y :: ys
    else if x < y then x :: y :: ys
    else y :: insertSortedUnique x ys

/-- Model of `np.unique(labels)` (source line 103): the lexicographically
sorted list of the distinct elements of `labels`. -/
def npUnique (l : List String) : List String :=
  l.foldl (fun acc x => insertSortedUnique x acc) []

namespace DataProcessor

/-- Embedding of `DataProcessor.get_labels` in single-label mode
(source lines 94-104):
collect every label of every example, then
`['<PAD>', '<START>'] + list(np.unique(labels)) + ['<END>']`. -/
def get_labels (labels_list : List (List String)) : List String :=
  ["<PAD>", "<START>"] ++ BertSk.npUnique labels_list.flatten ++ ["<END>"]

/-- Embedding of `DataProcessor.get_labels` in nested mode
(source lines 94-104): each
word's label set is flattened into the collection (`labels += list(label)`). -/
def get_labels_nested (labels_list : List (List (List String))) : List String :=
  ["<PAD>", "<START>"] ++ BertSk.npUnique labels_list.flatten.flatten ++ ["<END>"]

/-- Embedding of `DataProcessor.get_examples` in single-label mode
(source lines 106-119):
one `InputExample` per row; when `y is None` the labels are synthesized as
`["O"] * len(tokens)`.  When `y` is given, `labels_list` is `to_numpy(y)`
and the loop zips it with `words_list`. -/
def get_examples (words_list : List (List String))
    (y : Option (List (List String))) : List BertSk.InputExample :=
  match y with
  | some labels_list =>
    (words_list.zip labels_list).enum.map fun p =>
      ⟨"tokens-" ++ toString (p.1 + 1), p.2.1, p.2.2⟩
  | none =>
    words_list.enum.map fun p =>
      ⟨"tokens-" ++ toString (p.1 + 1), p.2, List.replicate p.2.length "O"⟩

/-- Embedding of `DataProcessor.get_examples` in nested mode
(source lines 106-119):
when `y is None` the labels are synthesized as `[["O"]*len(tokens)]`
(source line 115), a singleton list holding one list of `len(tokens)`
copies of `"O"`. -/
def get_examples_nested (words_list : List (List String))
    (y : Option (List (List (List String)))) : List BertSk.NestedExample :=
  match y with
  | some labels_list =>
    (words_list.zip labels_list).enum.map fun p =>
      ⟨"tokens-" ++ toString (p.1 + 1), p.2.1, p.2.2⟩
  | none =>
    words_list.enum.map fun p =>
      ⟨"tokens-" ++ toString (p.1 + 1), p.2, [List.replicate p.2.length "O"]⟩

end DataProcessor

/-! Concrete scenario of spec §8: vocabulary
`['<PAD>','<START>','B-LOC','O','<END>']`, words `["Paris","is","nice"]`
with labels `["B-LOC","O","O"]`, a tokenizer splitting `"Paris"` into
`["Par","##is"]` and every other word into one piece, `max_seq_length=8`,
default configuration. -/

/-- Scenario tokenizer: `"Paris"` is split into two pieces, every other
word is kept whole. -/
def scenTok (s : String) : List String :=
  if s = "Paris" then ["Par", "##is"] else [s]

/-- Scenario id mapping for `convert_tokens_to_ids` (an arbitrary injective
assignment on the tokens that occur). -/
def scenId (s : String) : Int :=
  if s = "[CLS]" then 101 else if s = "[SEP]" then 102 else
  if s = "Par" then 5 else if s = "##is" then 6 else
  if s = "is" then 7 else if s = "nice" then 8 else 0

/-- Scenario label vocabulary, indices 0-4. -/
def scenVocab : List String := ["<PAD>", "<START>", "B-LOC", "O", "<END>"]

/-- Variant scenario tokenizer that expands the empty word to zero pieces
(used to exercise the zero-piece-word path). -/
def scenTok0 (s : String) : List String := if s = "" then [] else scenTok s

/-- Scenario example. -/
def scenEx : InputExample :=
  ⟨"tokens-1", ["Paris", "is", "nice"], ["B-LOC", "O", "O"]⟩

/-- Nested-mode companion example used to exercise the nested pipeline. -/
def scenNEx : NestedExample :=
  ⟨"tokens-1", ["Paris", "is", "nice"], [["B-LOC"], ["O"], ["O"]]⟩

/-! Structural lemmas about the pipeline stages. -/

lemma alignWords_lengths (tok : String → List String) (ll : List String)
    (ptli : Int) (ps : List (String × String)) :
    (alignWords tok ll ptli ps).labels.length =
      (alignWords tok ll ptli ps).tokens.length ∧
    (alignWords tok ll ptli ps).mask.length =
      (alignWords tok ll ptli ps).tokens.length := by
  induction ps with
  | nil => simp [alignWords]
  | cons p rest ih =>
    obtain ⟨w, l⟩ := p
    obtain ⟨ih1, ih2⟩ := ih
    by_cases h : 0 < (tok w).length
    · simp only [alignWords, if_pos h, List.length_append, List.length_cons,
        List.length_replicate]
      omega
    · simpa only [alignWords, if_neg h] using ⟨ih1, ih2⟩

lemma alignWordsNested_lengths (tok : String → List String) (ll : List String)
    (ptli : Int) (ps : List (String × List String)) :
    (alignWordsNested tok ll ptli ps).labels.length =
      (alignWordsNested tok ll ptli ps).tokens.length ∧
    (alignWordsNested tok ll ptli ps).mask.length =
      (alignWordsNested tok ll ptli ps).tokens.length := by
  induction ps with
  | nil => simp [alignWordsNested]
  | cons p rest ih =>
    obtain ⟨w, l⟩ := p
    obtain ⟨ih1, ih2⟩ := ih
    by_cases h : 0 < (tok w).length
    · simp only [alignWordsNested, if_pos h, List.length_append,
        List.length_cons, List.length_replicate]
      omega
    · simpa only [alignWordsNested, if_neg h] using ⟨ih1, ih2⟩

lemma alignWords_append (tok : String → List String) (ll : List String)
    (ptli : Int) (xs ys : List (String × String)) :
    alignWords tok ll ptli (xs ++ ys) =
      ⟨(alignWords tok ll ptli xs).tokens ++ (alignWords tok ll ptli ys).tokens,
       (alignWords tok ll ptli xs).labels ++ (alignWords tok ll ptli ys).labels,
       (alignWords tok ll ptli xs).mask ++ (alignWords tok ll ptli ys).mask⟩ := by
  induction xs with
  | nil => simp [alignWords]
  | cons p xs ih =>
    obtain ⟨w, l⟩ := p
    by_cases h : 0 < (tok w).length
    · simp [alignWords, if_pos h, ih]
    · simp [alignWords, if_neg h, ih]

lemma alignWordsNested_append (tok : String → List String) (ll : List String)
    (ptli : Int) (xs ys : List (String × List String)) :
    alignWordsNested tok ll ptli (xs ++ ys) =
      ⟨(alignWordsNested tok ll ptli xs).tokens ++
         (alignWordsNested tok ll ptli ys).tokens,
       (alignWordsNested tok ll ptli xs).labels ++
         (alignWordsNested tok ll ptli ys).labels,
       (alignWordsNested tok ll ptli xs).mask ++
         (alignWordsNested tok ll ptli ys).mask⟩ := by
  induction xs with
  | nil => simp [alignWordsNested]
  | cons p xs ih =>
    obtain ⟨w, l⟩ := p
    by_cases h : 0 < (tok w).length
    · simp [alignWordsNested, if_pos h, ih]
    · simp [alignWordsNested, if_neg h, ih]

lemma pyTake_length {α : Type} (n : Int) (l : List α) :
    (pyTake n l).length =
      min (if 0 ≤ n then n.toNat else l.length - (-n).toNat) l.length := by
  unfold pyTake
  split
  · rename_i h
    simp [List.length_take, h]
  · rename_i h
    simp only [List.length_take, if_neg h]

lemma pyTake_nonneg {α : Type} (n : Int) (l : List α) (h : 0 ≤ n) :
    pyTake n l = l.take n.toNat := by
  simp [pyTake, h]

lemma mem_of_mem_pyTake {α : Type} {n : Int} {l : List α} {a : α}
    (h : a ∈ pyTake n l) : a ∈ l := by
  unfold pyTake at h
  split at h <;> exact List.mem_of_mem_take h

lemma truncateTriple_tokens_le {α : Type} (msl stc : Nat) (h : stc ≤ msl)
    (st : SeqTriple α) :
    (truncateTriple msl stc st).tokens.length ≤ msl - stc := by
  have h0 : (0 : Int) ≤ (msl : Int) - (stc : Int) := by omega
  unfold truncateTriple
  split
  · rename_i hgt
    simp only [pyTake_length, if_pos h0]
    omega
  · rename_i hle
    simp only [not_lt] at hle
    omega

lemma truncateTriple_lengths {α : Type} (msl stc : Nat) (st : SeqTriple α)
    (h1 : st.labels.length = st.tokens.length)
    (h2 : st.mask.length = st.tokens.length) :
    (truncateTriple msl stc st).labels.length =
      (truncateTriple msl stc st).tokens.length ∧
    (truncateTriple msl stc st).mask.length =
      (truncateTriple msl stc st).tokens.length := by
  unfold truncateTriple
  split
  · by_cases h0 : (0 : Int) ≤ (msl : Int) - (stc : Int)
    · simp [pyTake_length, if_pos h0, h1, h2]
    · simp [pyTake_length, if_neg h0, h1, h2]
  · exact ⟨h1, h2⟩

lemma truncateTriple_mask_sub {α : Type} (msl stc : Nat) (st : SeqTriple α) :
    ∀ v ∈ (truncateTriple msl stc st).mask, v ∈ st.mask := by
  unfold truncateTriple
  split
  · exact fun v hv => mem_of_mem_pyTake hv
  · exact fun v hv => hv

lemma addSep_tokens_length {α : Type} (cfg : EncodeConfig) (endLab zeroLab : α)
    (st : SeqTriple α) :
    (addSep cfg endLab zeroLab st).tokens.length =
      st.tokens.length + (specialTokensCount cfg.sep_token_extra - 1) := by
  unfold addSep specialTokensCount
  cases h : cfg.sep_token_extra <;> simp

lemma addSep_lengths {α : Type} (cfg : EncodeConfig) (endLab zeroLab : α)
    (st : SeqTriple α)
    (h1 : st.labels.length = st.tokens.length)
    (h2 : st.mask.length = st.tokens.length) :
    (addSep cfg endLab zeroLab st).labels.length =
      (addSep cfg endLab zeroLab st).tokens.length ∧
    (addSep cfg endLab zeroLab st).mask.length =
      (addSep cfg endLab zeroLab st).tokens.length := by
  unfold addSep
  cases h : cfg.sep_token_extra <;> simp [h1, h2]

lemma addSep_mask_mem {α : Type} (cfg : EncodeConfig) (endLab zeroLab : α)
    (st : SeqTriple α) :
    ∀ v ∈ (addSep cfg endLab zeroLab st).mask,
      v ∈ st.mask ∨ v = cfg.pad_token_label_id := by
  unfold addSep
  cases h : cfg.sep_token_extra
  · simp
  · simp

lemma addClsSingle_lengths (cfg : EncodeConfig) (ll : List String)
    (st : SeqTriple Int)
    (h1 : st.labels.length = st.tokens.length)
    (h2 : st.mask.length = st.tokens.length) :
    (addClsSingle cfg ll st).tokens.length = st.tokens.length + 1 ∧
    (addClsSingle cfg ll st).labels.length = st.tokens.length + 1 ∧
    (addClsSingle cfg ll st).mask.length = st.tokens.length + 1 ∧
    (addClsSingle cfg ll st).segs.length = st.tokens.length + 1 := by
  unfold addClsSingle
  cases h : cfg.cls_token_at_end <;> simp [h1, h2]

lemma addClsNested_lengths (cfg : EncodeConfig) (ll : List String)
    (st : SeqTriple (List Int))
    (h1 : st.labels.length = st.tokens.length)
    (h2 : st.mask.length = st.tokens.length) :
    (addClsNested cfg ll st).tokens.length = st.tokens.length + 1 ∧
    (addClsNested cfg ll st).labels.length = st.tokens.length + 1 ∧
    (addClsNested cfg ll st).mask.length = st.tokens.length + 1 ∧
    (addClsNested cfg ll st).segs.length = st.tokens.length + 1 := by
  unfold addClsNested
  cases h : cfg.cls_token_at_end <;> simp [h1, h2]

lemma addClsSingle_mask_mem (cfg : EncodeConfig) (ll : List String)
    (st : SeqTriple Int) :
    ∀ v ∈ (addClsSingle cfg ll st).mask,
      v ∈ st.mask ∨ v = cfg.pad_token_label_id := by
  unfold addClsSingle
  cases h : cfg.cls_token_at_end
  · simp
    tauto
  · simp

lemma padSeqs_lengthsOk {α : Type} (cfg : EncodeConfig) (msl : Nat)
    (padLab : α) (to_id : String → Int) (q : SeqQuad α)
    (h1 : q.labels.length = q.tokens.length)
    (h2 : q.mask.length = q.tokens.length)
    (h3 : q.segs.length = q.tokens.length)
    (hle : q.tokens.length ≤ msl) :
    lengthsOk msl (padSeqs cfg msl padLab to_id q) := by
  by_cases hp : cfg.pad_on_left
  · simp only [padSeqs, hp, if_true, lengthsOk, pyReplicate,
      List.length_append, List.length_replicate, List.length_map, h1, h2, h3]
    omega
  · simp only [padSeqs, hp, Bool.false_eq_true, if_false, lengthsOk,
      pyReplicate, List.length_append, List.length_replicate,
      List.length_map, h1, h2, h3]
    omega

lemma padSeqs_mask_mem {α : Type} (cfg : EncodeConfig) (msl : Nat)
    (padLab : α) (to_id : String → Int) (q : SeqQuad α) :
    ∀ v ∈ (padSeqs cfg msl padLab to_id q).label_mask,
      v ∈ q.mask ∨ v = cfg.pad_token_label_id := by
  by_cases hp : cfg.pad_on_left
  · simp only [padSeqs, hp, if_true, pyReplicate]
    intro v hv
    rcases List.mem_append.mp hv with hv | hv
    · exact Or.inr (List.eq_of_mem_replicate hv)
    · exact Or.inl hv
  · simp only [padSeqs, hp, Bool.false_eq_true, if_false, pyReplicate]
    intro v hv
    rcases List.mem_append.mp hv with hv | hv
    · exact Or.inl hv
    · exact Or.inr (List.eq_of_mem_replicate hv)

lemma padSeqs_right {α : Type} (cfg : EncodeConfig) (msl : Nat) (padLab : α)
    (to_id : String → Int) (q : SeqQuad α) (hp : cfg.pad_on_left = false) :
    padSeqs cfg msl padLab to_id q =
      ⟨q.tokens.map to_id ++
         pyReplicate ((msl : Int) - (q.tokens.length : Int)) cfg.pad_token,
       List.replicate q.tokens.length
           (if cfg.mask_padding_with_zero then (1 : Int) else 0) ++
         pyReplicate ((msl : Int) - (q.tokens.length : Int))
           (if cfg.mask_padding_with_zero then (0 : Int) else 1),
       q.segs ++
         pyReplicate ((msl : Int) - (q.tokens.length : Int))
           cfg.pad_token_segment_id,
       q.labels ++ pyReplicate ((msl : Int) - (q.tokens.length : Int)) padLab,
       q.mask ++
         pyReplicate ((msl : Int) - (q.tokens.length : Int))
           cfg.pad_token_label_id⟩ := by
  simp [padSeqs, hp]

lemma encodeSingle_lengthsOk (tok : String → List String) (to_id : String → Int)
    (ex : InputExample) (msl : Nat) (ll : List String) (cfg : EncodeConfig)
    (h : specialTokensCount cfg.sep_token_extra ≤ msl) :
    lengthsOk msl (encodeSingle tok to_id ex msl ll cfg) := by
  simp only [encodeSingle]
  obtain ⟨a1, a2⟩ :=
    alignWords_lengths tok ll cfg.pad_token_label_id (ex.tokens.zip ex.labels)
  set st0 := alignWords tok ll cfg.pad_token_label_id (ex.tokens.zip ex.labels)
    with hst0
  set stc := specialTokensCount cfg.sep_token_extra with hstc
  have tle := truncateTriple_tokens_le msl stc h st0
  obtain ⟨t1, t2⟩ := truncateTriple_lengths msl stc st0 a1 a2
  set st1 := truncateTriple msl stc st0 with hst1
  have slen := addSep_tokens_length cfg (labelIdx ll "<END>" : Int) 0 st1
  obtain ⟨s1, s2⟩ := addSep_lengths cfg (labelIdx ll "<END>" : Int) 0 st1 t1 t2
  set st2 := addSep cfg (labelIdx ll "<END>" : Int) 0 st1 with hst2
  obtain ⟨c1, c2, c3, c4⟩ := addClsSingle_lengths cfg ll st2 s1 s2
  set q := addClsSingle cfg ll st2 with hq
  have h2 : 2 ≤ stc := by
    rw [hstc]
    unfold specialTokensCount
    split <;> omega
  exact padSeqs_lengthsOk cfg msl 0 to_id q (by omega) (by omega) (by omega)
    (by omega)

lemma encodeNested_lengthsOk (tok : String → List String) (to_id : String → Int)
    (ex : NestedExample) (msl : Nat) (ll : List String) (cfg : EncodeConfig)
    (h : specialTokensCount cfg.sep_token_extra ≤ msl) :
    lengthsOk msl (encodeNested tok to_id ex msl ll cfg) := by
  simp only [encodeNested]
  obtain ⟨a1, a2⟩ :=
    alignWordsNested_lengths tok ll cfg.pad_token_label_id
      (ex.tokens.zip ex.labels)
  set st0 := alignWordsNested tok ll cfg.pad_token_label_id
    (ex.tokens.zip ex.labels) with hst0
  set stc := specialTokensCount cfg.sep_token_extra with hstc
  have tle := truncateTriple_tokens_le msl stc h st0
  obtain ⟨t1, t2⟩ := truncateTriple_lengths msl stc st0 a1 a2
  set st1 := truncateTriple msl stc st0 with hst1
  have slen := addSep_tokens_length cfg (multiHot ll ["<END>"]) (zeroLabelId ll) st1
  obtain ⟨s1, s2⟩ :=
    addSep_lengths cfg (multiHot ll ["<END>"]) (zeroLabelId ll) st1 t1 t2
  set st2 := addSep cfg (multiHot ll ["<END>"]) (zeroLabelId ll) st1 with hst2
  obtain ⟨c1, c2, c3, c4⟩ := addClsNested_lengths cfg ll st2 s1 s2
  set q := addClsNested cfg ll st2 with hq
  have h2 : 2 ≤ stc := by
    rw [hstc]
    unfold specialTokensCount
    split <;> omega
  exact padSeqs_lengthsOk cfg msl (zeroLabelId ll) to_id q (by omega) (by omega)
    (by omega) (by omega)

lemma convert_eq_some_of_lengthsOk (tok : String → List String)
    (to_id : String → Int) (ex : InputExample) (msl : Nat) (ll : List String)
    (cfg : EncodeConfig)
    (hok : lengthsOk msl (encodeSingle tok to_id ex msl ll cfg)) :
    convert_example_to_features tok to_id ex msl ll cfg =
      some (encodeSingle tok to_id ex msl ll cfg) := by
  simp only [convert_example_to_features]
  rw [if_pos hok]

lemma convert_nested_eq_some_of_lengthsOk (tok : String → List String)
    (to_id : String → Int) (ex : NestedExample) (msl : Nat) (ll : List String)
    (cfg : EncodeConfig)
    (hok : lengthsOk msl (encodeNested tok to_id ex msl ll cfg)) :
    convert_example_to_features_nested tok to_id ex msl ll cfg =
      some (encodeNested tok to_id ex msl ll cfg) := by
  simp only [convert_example_to_features_nested]
  rw [if_pos hok]

lemma alignWords_mask_mem (tok : String → List String) (ll : List String)
    (ptli : Int) (ps : List (String × String)) :
    ∀ v ∈ (alignWords tok ll ptli ps).mask, v = 1 ∨ v = ptli := by
  induction ps with
  | nil => simp [alignWords]
  | cons p rest ih =>
    obtain ⟨w, l⟩ := p
    by_cases h : 0 < (tok w).length
    · simp only [alignWords, if_pos h, List.mem_append, List.mem_cons]
      intro v hv
      rcases hv with (hv | hv) | hv
      · exact Or.inl hv
      · exact Or.inr (List.eq_of_mem_replicate hv)
      · exact ih v hv
    · simpa only [alignWords, if_neg h] using ih

lemma encodeSingle_mask_mem (tok : String → List String) (to_id : String → Int)
    (ex : InputExample) (msl : Nat) (ll : List String) (cfg : EncodeConfig) :
    ∀ v ∈ (encodeSingle tok to_id ex msl ll cfg).label_mask,
      v = 1 ∨ v = cfg.pad_token_label_id := by
  simp only [encodeSingle]
  intro v hv
  rcases padSeqs_mask_mem _ _ _ _ _ v hv with hv | hv
  · rcases addClsSingle_mask_mem _ _ _ v hv with hv | hv
    · rcases addSep_mask_mem _ _ _ _ v hv with hv | hv
      · have hv' := truncateTriple_mask_sub _ _ _ v hv
        exact alignWords_mask_mem tok ll cfg.pad_token_label_id _ v hv'
      · exact Or.inr hv
    · exact Or.inr hv
  · exact Or.inr hv

lemma truncateTriple_noop {α : Type} (msl stc : Nat) (h : stc ≤ msl)
    (st : SeqTriple α) (hlen : st.tokens.length = msl - stc) :
    truncateTriple msl stc st = st := by
  have hle : ¬ ((st.tokens.length : Int) > (msl : Int) - (stc : Int)) := by
    omega
  unfold truncateTriple
  rw [if_neg hle]

lemma truncateTriple_dropLast {α : Type} (msl stc : Nat) (h : stc ≤ msl)
    (st : SeqTriple α)
    (h1 : st.labels.length = st.tokens.length)
    (h2 : st.mask.length = st.tokens.length)
    (hlen : st.tokens.length = msl - stc + 1) :
    truncateTriple msl stc st =
      ⟨st.tokens.dropLast, st.labels.dropLast, st.mask.dropLast⟩ := by
  have hgt : (st.tokens.length : Int) > (msl : Int) - (stc : Int) := by omega
  have h0 : (0 : Int) ≤ (msl : Int) - (stc : Int) := by omega
  have htn : ((msl : Int) - (stc : Int)).toNat = msl - stc := by omega
  have e1 : pyTake ((msl : Int) - (stc : Int)) st.tokens = st.tokens.dropLast := by
    rw [pyTake_nonneg _ _ h0, htn, List.dropLast_eq_take]
    congr 1
    omega
  have e2 : pyTake ((msl : Int) - (stc : Int)) st.labels = st.labels.dropLast := by
    rw [pyTake_nonneg _ _ h0, htn, List.dropLast_eq_take]
    congr 1
    omega
  have e3 : pyTake ((msl : Int) - (stc : Int)) st.mask = st.mask.dropLast := by
    rw [pyTake_nonneg _ _ h0, htn, List.dropLast_eq_take]
    congr 1
    omega
  unfold truncateTriple
  rw [if_pos hgt, e1, e2, e3]

lemma mem_insertSortedUnique (x a : String) (l : List String) :
    a ∈ insertSortedUnique x l ↔ a = x ∨ a ∈ l := by
  induction l with
  | nil => simp [insertSortedUnique]
  | cons y ys ih =>
    by_cases h1 : x = y
    · subst h1
      have he : insertSortedUnique x (x :: ys) = x :: ys := by
        simp [insertSortedUnique]
      rw [he, List.mem_cons]
      tauto
    · by_cases h2 : x < y
      · simp only [insertSortedUnique, if_neg h1, if_pos h2, List.mem_cons]
      · simp only [insertSortedUnique, if_neg h1, if_neg h2, List.mem_cons, ih]
        tauto

lemma sorted_insertSortedUnique (x : String) (l : List String)
    (h : l.Sorted (· < ·)) : (insertSortedUnique x l).Sorted (· < ·) := by
  induction l with
  | nil => simp [insertSortedUnique]
  | cons y ys ih =>
    rw [List.sorted_cons] at h
    obtain ⟨hy, hys⟩ := h
    by_cases h1 : x = y
    · subst h1
      have he : insertSortedUnique x (x :: ys) = x :: ys := by
        simp [insertSortedUnique]
      rw [he, List.sorted_cons]
      exact ⟨hy, hys⟩
    · by_cases h2 : x < y
      · simp only [insertSortedUnique, if_neg h1, if_pos h2, List.sorted_cons]
        refine ⟨?_, ?_⟩
        · intro b hb
          rcases List.mem_cons.mp hb with rfl | hb
          · exact h2
          · exact lt_trans h2 (hy b hb)
        · exact ⟨hy, hys⟩
      · have hyx : y < x := by
          rcases lt_trichotomy x y with h | h | h
          · exact absurd h h2
          · exact absurd h h1
          · exact h
        simp only [insertSortedUnique, if_neg h1, if_neg h2, List.sorted_cons]
        refine ⟨?_, ih hys⟩
        intro b hb
        rcases (mem_insertSortedUnique x b ys).mp hb with rfl | hb
        · exact hyx
        · exact hy b hb

lemma npUnique_foldl (l : List String) :
    ∀ acc : List String, acc.Sorted (· < ·) →
      (l.foldl (fun acc x => insertSortedUnique x acc) acc).Sorted (· < ·) ∧
      ∀ a, a ∈ l.foldl (fun acc x => insertSortedUnique x acc) acc ↔
        a ∈ acc ∨ a ∈ l := by
  induction l with
  | nil =>
    intro acc hacc
    refine ⟨hacc, ?_⟩
    intro a
    simp
  | cons x xs ih =>
    intro acc hacc
    have h1 := ih (insertSortedUnique x acc) (sorted_insertSortedUnique x acc hacc)
    simp only [List.foldl_cons]
    refine ⟨h1.1, ?_⟩
    intro a
    rw [h1.2 a, mem_insertSortedUnique]
    simp only [List.mem_cons]
    tauto

lemma npUnique_sorted (l : List String) : (npUnique l).Sorted (· < ·) :=
  (npUnique_foldl l [] (by simp)).1

lemma mem_npUnique (l : List String) (a : String) : a ∈ npUnique l ↔ a ∈ l := by
  have h := (npUnique_foldl l [] (by simp)).2 a
  simpa [npUnique] using h

lemma npUnique_nodup (l : List String) : (npUnique l).Nodup :=
  List.Pairwise.imp (fun hlt => ne_of_lt hlt) (npUnique_sorted l)

lemma zip_eq_zip_take_min {α β : Type} :
    ∀ (ts : List α) (ls : List β),
      ts.zip ls =
        (ts.take (min ts.length ls.length)).zip
          (ls.take (min ts.length ls.length)) := by
  intro ts
  induction ts with
  | nil =>
    intro ls
    simp
  | cons t ts ih =>
    intro ls
    cases ls with
    | nil => simp
    | cons l ls =>
      simp only [List.length_cons, Nat.succ_min_succ, List.take_succ_cons,
        List.zip_cons_cons]
      exact congrArg (List.cons (t, l)) (ih ls)

/-! Claim theorems. -/

/-- C1 counterexample: in the concrete default-configuration scenario the
sequence before padding has length 6, so position 6 of the final
`label_mask` is a padding position; it holds the ignore sentinel `-100`,
not `0` as the claim states. -/
theorem C1_counterexample :
    (addClsSingle defaultConfig scenVocab
        (addSep defaultConfig (labelIdx scenVocab "<END>" : Int) 0
          (truncateTriple 8 2
            (alignWords scenTok scenVocab (-100)
              (scenEx.tokens.zip scenEx.labels))))).mask.length = 6 ∧
    (encodeSingle scenTok scenId scenEx 8 scenVocab
        defaultConfig).label_mask[6]? = some (-100) ∧
    some (-100 : Int) ≠ some (0 : Int) := by
  decide

/-- C1 (amended): with the default configuration the padding positions of
`label_mask` hold the ignore sentinel `-100` (`pad_token_label_id`), not
`0`: the final mask is the pre-padding mask followed by `-100` entries,
and every `label_mask` value is `1` (scored first-subword position) or
`-100` (continuation subwords, special tokens, and padding); the value `0`
never occurs. -/
theorem C1_label_mask_padding (tok : String → List String)
    (to_id : String → Int) (ex : InputExample) (msl : Nat)
    (ll : List String) :
    (encodeSingle tok to_id ex msl ll defaultConfig).label_mask =
      (addClsSingle defaultConfig ll
          (addSep defaultConfig (labelIdx ll "<END>" : Int) 0
            (truncateTriple msl 2
              (alignWords tok ll (-100)
                (ex.tokens.zip ex.labels))))).mask ++
        pyReplicate ((msl : Int) -
            ((addClsSingle defaultConfig ll
                (addSep defaultConfig (labelIdx ll "<END>" : Int) 0
                  (truncateTriple msl 2
                    (alignWords tok ll (-100)
                      (ex.tokens.zip ex.labels))))).tokens.length : Int))
          (-100) ∧
    ∀ v ∈ (encodeSingle tok to_id ex msl ll defaultConfig).label_mask,
      v = 1 ∨ v = -100 := by
  constructor
  · simp only [encodeSingle,
      padSeqs_right defaultConfig msl (0 : Int) to_id _ rfl]
    rfl
  · intro v hv
    exact encodeSingle_mask_mem tok to_id ex msl ll defaultConfig v hv

/-- C1 witness: the amended mask-partition property instantiated at the
concrete scenario, with the membership implication applied to the value
`-100`. -/
theorem C1_label_mask_padding_witness :
    ((encodeSingle scenTok scenId scenEx 8 scenVocab defaultConfig).label_mask =
      (addClsSingle defaultConfig scenVocab
          (addSep defaultConfig (labelIdx scenVocab "<END>" : Int) 0
            (truncateTriple 8 2
              (alignWords scenTok scenVocab (-100)
                (scenEx.tokens.zip scenEx.labels))))).mask ++
        pyReplicate ((8 : Int) -
            ((addClsSingle defaultConfig scenVocab
                (addSep defaultConfig (labelIdx scenVocab "<END>" : Int) 0
                  (truncateTriple 8 2
                    (alignWords scenTok scenVocab (-100)
                      (scenEx.tokens.zip
                        scenEx.labels))))).tokens.length : Int))
          (-100)) ∧
    ((-100 : Int) ∈
        (encodeSingle scenTok scenId scenEx 8 scenVocab
          defaultConfig).label_mask →
      (-100 : Int) = 1 ∨ (-100 : Int) = -100) :=
  ⟨(C1_label_mask_padding scenTok scenId scenEx 8 scenVocab).1,
   fun hm =>
    (C1_label_mask_padding scenTok scenId scenEx 8 scenVocab).2 (-100) hm⟩

/-- C2 counterexample: with `max_seq_length = 1`, smaller than the 2 slots
reserved for special tokens, even the empty example trips the length
assertions: the final sequences have length 2 (Python's negative slice
bound does not empty the list), so `convert_example_to_features` raises
instead of returning a record. -/
theorem C2_counterexample :
    convert_example_to_features scenTok scenId ⟨"tokens-1", [], []⟩ 1
      scenVocab defaultConfig = none ∧
    (encodeSingle scenTok scenId ⟨"tokens-1", [], []⟩ 1 scenVocab
        defaultConfig).input_ids.length = 2 := by
  decide

/-- C2 (amended): for every example and every configuration whose
`max_seq_length` is at least the reserved special-token count (2, or 3
with `sep_token_extra`), all five output sequences have length exactly
`max_seq_length` and the terminal assertions pass, in single-label and in
nested mode. -/
theorem C2_length_invariant (tok : String → List String)
    (to_id : String → Int) (ex : InputExample) (nex : NestedExample)
    (msl : Nat) (ll : List String) (cfg : EncodeConfig)
    (h : specialTokensCount cfg.sep_token_extra ≤ msl) :
    lengthsOk msl (encodeSingle tok to_id ex msl ll cfg) ∧
    convert_example_to_features tok to_id ex msl ll cfg =
      some (encodeSingle tok to_id ex msl ll cfg) ∧
    lengthsOk msl (encodeNested tok to_id nex msl ll cfg) ∧
    convert_example_to_features_nested tok to_id nex msl ll cfg =
      some (encodeNested tok to_id nex msl ll cfg) := by
  have h1 := encodeSingle_lengthsOk tok to_id ex msl ll cfg h
  have h2 := encodeNested_lengthsOk tok to_id nex msl ll cfg h
  exact ⟨h1, convert_eq_some_of_lengthsOk _ _ _ _ _ _ h1, h2,
    convert_nested_eq_some_of_lengthsOk _ _ _ _ _ _ h2⟩

/-- C2 witness: the length invariant instantiated at the concrete scenario
(`max_seq_length = 8`, default configuration). -/
theorem C2_length_invariant_witness :
    specialTokensCount defaultConfig.sep_token_extra ≤ 8 ∧
    (lengthsOk 8 (encodeSingle scenTok scenId scenEx 8 scenVocab
        defaultConfig) ∧
      convert_example_to_features scenTok scenId scenEx 8 scenVocab
          defaultConfig =
        some (encodeSingle scenTok scenId scenEx 8 scenVocab defaultConfig) ∧
      lengthsOk 8 (encodeNested scenTok scenId scenNEx 8 scenVocab
        defaultConfig) ∧
      convert_example_to_features_nested scenTok scenId scenNEx 8 scenVocab
          defaultConfig =
        some (encodeNested scenTok scenId scenNEx 8 scenVocab
          defaultConfig)) :=
  ⟨by decide, C2_length_invariant scenTok scenId scenEx scenNEx 8 scenVocab
    defaultConfig (by decide)⟩

/-- C3 counterexample: in the concrete scenario the returned label mask is
not `[-100, 1, -100, 1, 1, -100, 0, 0]`: the two padding entries hold the
ignore sentinel `-100`, not `0`. -/
theorem C3_counterexample :
    (encodeSingle scenTok scenId scenEx 8 scenVocab
        defaultConfig).label_mask ≠ [-100, 1, -100, 1, 1, -100, 0, 0] := by
  decide

/-- C3 (amended): in the concrete scenario the tokens before padding are
`[CLS, Par, ##is, is, nice, SEP]` and the returned record consists of
their ids followed by two pad ids, attention mask `[1,1,1,1,1,1,0,0]`,
segment ids `[1,0,0,0,0,0,0,0]`, label ids `[1, 2, 0, 3, 3, 4, 0, 0]` and
label mask `[-100, 1, -100, 1, 1, -100, -100, -100]` — the padding mask
entries hold `-100`, not `0`. -/
theorem C3_concrete_scenario :
    (addClsSingle defaultConfig scenVocab
        (addSep defaultConfig (labelIdx scenVocab "<END>" : Int) 0
          (truncateTriple 8 2
            (alignWords scenTok scenVocab (-100)
              (scenEx.tokens.zip scenEx.labels))))).tokens =
      ["[CLS]", "Par", "##is", "is", "nice", "[SEP]"] ∧
    convert_example_to_features scenTok scenId scenEx 8 scenVocab
        defaultConfig =
      some ⟨[101, 5, 6, 7, 8, 102, 0, 0],
            [1, 1, 1, 1, 1, 1, 0, 0],
            [1, 0, 0, 0, 0, 0, 0, 0],
            [1, 2, 0, 3, 3, 4, 0, 0],
            [-100, 1, -100, 1, 1, -100, -100, -100]⟩ := by
  decide

/-- C4: a word expanding to `k > 1` subword pieces contributes, in
single-label mode, its pieces together with label ids `real, 0, ..., 0`
and mask `1, -100, ..., -100` — so exactly one of its `k` positions, the
first, is scored — and in nested mode its multi-hot vector followed by
`k - 1` all-zero vectors with the same mask. -/
theorem C4_first_subword_labeling (tok : String → List String)
    (ll : List String) (pre post : List (String × String))
    (npre npost : List (String × List String)) (w lab : String)
    (nlab : List String) (h : 1 < (tok w).length) :
    alignWords tok ll (-100) (pre ++ (w, lab) :: post) =
      ⟨(alignWords tok ll (-100) pre).tokens ++ tok w ++
         (alignWords tok ll (-100) post).tokens,
       (alignWords tok ll (-100) pre).labels ++
         ((labelIdx ll lab : Int) ::
           List.replicate ((tok w).length - 1) 0) ++
         (alignWords tok ll (-100) post).labels,
       (alignWords tok ll (-100) pre).mask ++
         ((1 : Int) :: List.replicate ((tok w).length - 1) (-100)) ++
         (alignWords tok ll (-100) post).mask⟩ ∧
    alignWordsNested tok ll (-100) (npre ++ (w, nlab) :: npost) =
      ⟨(alignWordsNested tok ll (-100) npre).tokens ++ tok w ++
         (alignWordsNested tok ll (-100) npost).tokens,
       (alignWordsNested tok ll (-100) npre).labels ++
         (multiHot ll nlab ::
           List.replicate ((tok w).length - 1) (zeroLabelId ll)) ++
         (alignWordsNested tok ll (-100) npost).labels,
       (alignWordsNested tok ll (-100) npre).mask ++
         ((1 : Int) :: List.replicate ((tok w).length - 1) (-100)) ++
         (alignWordsNested tok ll (-100) npost).mask⟩ ∧
    ((1 : Int) :: List.replicate ((tok w).length - 1) (-100)).count 1 = 1 := by
  have hpos : 0 < (tok w).length := by omega
  refine ⟨?_, ?_, ?_⟩
  · rw [alignWords_append]
    simp [alignWords, if_pos hpos, List.append_assoc]
  · rw [alignWordsNested_append]
    simp [alignWordsNested, if_pos hpos, List.append_assoc]
  · simp [List.count_cons, List.count_replicate]

/-- C4 witness: the word `"Paris"` splits into 2 pieces; instantiated with
empty contexts, it contributes label ids `[2, 0]` and mask `[1, -100]`,
with exactly one scored position. -/
theorem C4_first_subword_labeling_witness :
    1 < (scenTok "Paris").length ∧
    (alignWords scenTok scenVocab (-100) ([] ++ ("Paris", "B-LOC") :: []) =
      ⟨(alignWords scenTok scenVocab (-100) []).tokens ++ scenTok "Paris" ++
         (alignWords scenTok scenVocab (-100) []).tokens,
       (alignWords scenTok scenVocab (-100) []).labels ++
         ((labelIdx scenVocab "B-LOC" : Int) ::
           List.replicate ((scenTok "Paris").length - 1) 0) ++
         (alignWords scenTok scenVocab (-100) []).labels,
       (alignWords scenTok scenVocab (-100) []).mask ++
         ((1 : Int) ::
           List.replicate ((scenTok "Paris").length - 1) (-100)) ++
         (alignWords scenTok scenVocab (-100) []).mask⟩ ∧
     alignWordsNested scenTok scenVocab (-100)
         ([] ++ ("Paris", ["B-LOC"]) :: []) =
       ⟨(alignWordsNested scenTok scenVocab (-100) []).tokens ++
          scenTok "Paris" ++
          (alignWordsNested scenTok scenVocab (-100) []).tokens,
        (alignWordsNested scenTok scenVocab (-100) []).labels ++
          (multiHot scenVocab ["B-LOC"] ::
            List.replicate ((scenTok "Paris").length - 1)
              (zeroLabelId scenVocab)) ++
          (alignWordsNested scenTok scenVocab (-100) []).labels,
        (alignWordsNested scenTok scenVocab (-100) []).mask ++
          ((1 : Int) ::
            List.replicate ((scenTok "Paris").length - 1) (-100)) ++
          (alignWordsNested scenTok scenVocab (-100) []).mask⟩ ∧
     ((1 : Int) ::
         List.replicate ((scenTok "Paris").length - 1) (-100)).count 1 = 1) :=
  ⟨by decide, C4_first_subword_labeling scenTok scenVocab [] [] [] []
    "Paris" "B-LOC" ["B-LOC"] (by decide)⟩

/-- C5: with the classifier token prepended (`cls_token_at_end = false`) and
right padding, position 0 of the final record holds the classifier token
id, the classifier segment id and an ignore-sentinel mask entry; in
single-label mode the `<START>` label id is also at position 0, but in
nested mode the `<START>` multi-hot vector is instead appended after the
body of `label_ids` (the source's asymmetry), before the padding vectors. -/
theorem C5_cls_prepend (tok : String → List String) (to_id : String → Int)
    (ex : InputExample) (nex : NestedExample) (msl : Nat) (ll : List String)
    (cfg : EncodeConfig) (h1 : cfg.cls_token_at_end = false)
    (h2 : cfg.pad_on_left = false) :
    (encodeSingle tok to_id ex msl ll cfg).input_ids.head? =
      some (to_id cfg.cls_token) ∧
    (encodeSingle tok to_id ex msl ll cfg).token_type_ids.head? =
      some cfg.cls_token_segment_id ∧
    (encodeSingle tok to_id ex msl ll cfg).label_mask.head? =
      some cfg.pad_token_label_id ∧
    (encodeSingle tok to_id ex msl ll cfg).label_ids.head? =
      some (labelIdx ll "<START>" : Int) ∧
    (encodeNested tok to_id nex msl ll cfg).label_mask.head? =
      some cfg.pad_token_label_id ∧
    (encodeNested tok to_id nex msl ll cfg).label_ids =
      (addSep cfg (multiHot ll ["<END>"]) (zeroLabelId ll)
          (truncateTriple msl (specialTokensCount cfg.sep_token_extra)
            (alignWordsNested tok ll cfg.pad_token_label_id
              (nex.tokens.zip nex.labels)))).labels ++
        [multiHot ll ["<START>"]] ++
        pyReplicate ((msl : Int) -
            (((addSep cfg (multiHot ll ["<END>"]) (zeroLabelId ll)
                (truncateTriple msl (specialTokensCount cfg.sep_token_extra)
                  (alignWordsNested tok ll cfg.pad_token_label_id
                    (nex.tokens.zip nex.labels)))).tokens.length : Int) + 1))
          (zeroLabelId ll) := by
  have hq :
      addClsSingle cfg ll
          (addSep cfg (labelIdx ll "<END>" : Int) 0
            (truncateTriple msl (specialTokensCount cfg.sep_token_extra)
              (alignWords tok ll cfg.pad_token_label_id
                (ex.tokens.zip ex.labels)))) =
        ⟨cfg.cls_token ::
           (addSep cfg (labelIdx ll "<END>" : Int) 0
             (truncateTriple msl (specialTokensCount cfg.sep_token_extra)
               (alignWords tok ll cfg.pad_token_label_id
                 (ex.tokens.zip ex.labels)))).tokens,
         (labelIdx ll "<START>" : Int) ::
           (addSep cfg (labelIdx ll "<END>" : Int) 0
             (truncateTriple msl (specialTokensCount cfg.sep_token_extra)
               (alignWords tok ll cfg.pad_token_label_id
                 (ex.tokens.zip ex.labels)))).labels,
         cfg.pad_token_label_id ::
           (addSep cfg (labelIdx ll "<END>" : Int) 0
             (truncateTriple msl (specialTokensCount cfg.sep_token_extra)
               (alignWords tok ll cfg.pad_token_label_id
                 (ex.tokens.zip ex.labels)))).mask,
         cfg.cls_token_segment_id ::
           List.replicate
             (addSep cfg (labelIdx ll "<END>" : Int) 0
               (truncateTriple msl (specialTokensCount cfg.sep_token_extra)
                 (alignWords tok ll cfg.pad_token_label_id
                   (ex.tokens.zip ex.labels)))).tokens.length
             cfg.sequence_a_segment_id⟩ := by
    simp [addClsSingle, h1]
  have hqn :
      addClsNested cfg ll
          (addSep cfg (multiHot ll ["<END>"]) (zeroLabelId ll)
            (truncateTriple msl (specialTokensCount cfg.sep_token_extra)
              (alignWordsNested tok ll cfg.pad_token_label_id
                (nex.tokens.zip nex.labels)))) =
        ⟨cfg.cls_token ::
           (addSep cfg (multiHot ll ["<END>"]) (zeroLabelId ll)
             (truncateTriple msl (specialTokensCount cfg.sep_token_extra)
               (alignWordsNested tok ll cfg.pad_token_label_id
                 (nex.tokens.zip nex.labels)))).tokens,
         (addSep cfg (multiHot ll ["<END>"]) (zeroLabelId ll)
             (truncateTriple msl (specialTokensCount cfg.sep_token_extra)
               (alignWordsNested tok ll cfg.pad_token_label_id
                 (nex.tokens.zip nex.labels)))).labels ++
           [multiHot ll ["<START>"]],
         cfg.pad_token_label_id ::
           (addSep cfg (multiHot ll ["<END>"]) (zeroLabelId ll)
             (truncateTriple msl (specialTokensCount cfg.sep_token_extra)
               (alignWordsNested tok ll cfg.pad_token_label_id
                 (nex.tokens.zip nex.labels)))).mask,
         cfg.cls_token_segment_id ::
           List.replicate
             (addSep cfg (multiHot ll ["<END>"]) (zeroLabelId ll)
               (truncateTriple msl (specialTokensCount cfg.sep_token_extra)
                 (alignWordsNested tok ll cfg.pad_token_label_id
                   (nex.tokens.zip nex.labels)))).tokens.length
             cfg.sequence_a_segment_id⟩ := by
    simp [addClsNested, h1]
  refine ⟨?_, ?_, ?_, ?_, ?_, ?_⟩
  · simp [encodeSingle, hq, padSeqs_right _ _ _ _ _ h2, List.head?_append]
  · simp [encodeSingle, hq, padSeqs_right _ _ _ _ _ h2, List.head?_append]
  · simp [encodeSingle, hq, padSeqs_right _ _ _ _ _ h2, List.head?_append]
  · simp [encodeSingle, hq, padSeqs_right _ _ _ _ _ h2, List.head?_append]
  · simp [encodeNested, hqn, padSeqs_right _ _ _ _ _ h2, List.head?_append]
  · simp [encodeNested, hqn, padSeqs_right _ _ _ _ _ h2, List.append_assoc]

/-- C5 witness: the prepend policy instantiated at the concrete scenario
with the default configuration. -/
theorem C5_cls_prepend_witness :
    defaultConfig.cls_token_at_end = false ∧
    defaultConfig.pad_on_left = false ∧
    ((encodeSingle scenTok scenId scenEx 8 scenVocab
        defaultConfig).input_ids.head? =
      some (scenId defaultConfig.cls_token) ∧
    (encodeSingle scenTok scenId scenEx 8 scenVocab
        defaultConfig).token_type_ids.head? =
      some defaultConfig.cls_token_segment_id ∧
    (encodeSingle scenTok scenId scenEx 8 scenVocab
        defaultConfig).label_mask.head? =
      some defaultConfig.pad_token_label_id ∧
    (encodeSingle scenTok scenId scenEx 8 scenVocab
        defaultConfig).label_ids.head? =
      some (labelIdx scenVocab "<START>" : Int) ∧
    (encodeNested scenTok scenId scenNEx 8 scenVocab
        defaultConfig).label_mask.head? =
      some defaultConfig.pad_token_label_id ∧
    (encodeNested scenTok scenId scenNEx 8 scenVocab
        defaultConfig).label_ids =
      (addSep defaultConfig (multiHot scenVocab ["<END>"])
          (zeroLabelId scenVocab)
          (truncateTriple 8
            (specialTokensCount defaultConfig.sep_token_extra)
            (alignWordsNested scenTok scenVocab
              defaultConfig.pad_token_label_id
              (scenNEx.tokens.zip scenNEx.labels)))).labels ++
        [multiHot scenVocab ["<START>"]] ++
        pyReplicate ((8 : Int) -
            (((addSep defaultConfig (multiHot scenVocab ["<END>"])
                (zeroLabelId scenVocab)
                (truncateTriple 8
                  (specialTokensCount defaultConfig.sep_token_extra)
                  (alignWordsNested scenTok scenVocab
                    defaultConfig.pad_token_label_id
                    (scenNEx.tokens.zip
                      scenNEx.labels)))).tokens.length : Int) + 1))
          (zeroLabelId scenVocab)) :=
  ⟨rfl, rfl, C5_cls_prepend scenTok scenId scenEx scenNEx 8 scenVocab
    defaultConfig rfl rfl⟩

/-- C6: truncation reserves `specialTokensCount` slots (2, or 3 with
`sep_token_extra`); an aligned example whose expanded token count is
exactly `max_seq_length - reserved` passes truncation unchanged, while one
token longer has exactly its last piece dropped from all three parallel
sequences. -/
theorem C6_truncation_boundary (tok : String → List String)
    (ll : List String) (ptli : Int) (ex : InputExample) (msl : Nat)
    (extra : Bool) (h : specialTokensCount extra ≤ msl) :
    ((alignWords tok ll ptli (ex.tokens.zip ex.labels)).tokens.length =
        msl - specialTokensCount extra →
      truncateTriple msl (specialTokensCount extra)
          (alignWords tok ll ptli (ex.tokens.zip ex.labels)) =
        alignWords tok ll ptli (ex.tokens.zip ex.labels)) ∧
    ((alignWords tok ll ptli (ex.tokens.zip ex.labels)).tokens.length =
        msl - specialTokensCount extra + 1 →
      truncateTriple msl (specialTokensCount extra)
          (alignWords tok ll ptli (ex.tokens.zip ex.labels)) =
        ⟨(alignWords tok ll ptli (ex.tokens.zip ex.labels)).tokens.dropLast,
         (alignWords tok ll ptli (ex.tokens.zip ex.labels)).labels.dropLast,
         (alignWords tok ll ptli
           (ex.tokens.zip ex.labels)).mask.dropLast⟩) := by
  obtain ⟨a1, a2⟩ := alignWords_lengths tok ll ptli (ex.tokens.zip ex.labels)
  exact ⟨fun hl => truncateTriple_noop _ _ h _ hl,
    fun hl => truncateTriple_dropLast _ _ h _ a1 a2 hl⟩

/-- C6 witness: with `max_seq_length = 6` and no extra separator the
scenario example expands to exactly `6 - 2 = 4` pieces, the boundary
case. -/
theorem C6_truncation_boundary_witness :
    specialTokensCount false ≤ 6 ∧
    (((alignWords scenTok scenVocab (-100)
          (scenEx.tokens.zip scenEx.labels)).tokens.length =
        6 - specialTokensCount false →
      truncateTriple 6 (specialTokensCount false)
          (alignWords scenTok scenVocab (-100)
            (scenEx.tokens.zip scenEx.labels)) =
        alignWords scenTok scenVocab (-100)
          (scenEx.tokens.zip scenEx.labels)) ∧
    ((alignWords scenTok scenVocab (-100)
          (scenEx.tokens.zip scenEx.labels)).tokens.length =
        6 - specialTokensCount false + 1 →
      truncateTriple 6 (specialTokensCount false)
          (alignWords scenTok scenVocab (-100)
            (scenEx.tokens.zip scenEx.labels)) =
        ⟨(alignWords scenTok scenVocab (-100)
            (scenEx.tokens.zip scenEx.labels)).tokens.dropLast,
         (alignWords scenTok scenVocab (-100)
            (scenEx.tokens.zip scenEx.labels)).labels.dropLast,
         (alignWords scenTok scenVocab (-100)
            (scenEx.tokens.zip scenEx.labels)).mask.dropLast⟩)) :=
  ⟨by decide, C6_truncation_boundary scenTok scenVocab (-100) scenEx 6 false
    (by decide)⟩

/-- C7 counterexample: a malformed example with 2 words but 1 label is not
rejected — encoding succeeds and returns a feature record (the `zip`
pairing silently drops the unpaired word). -/
theorem C7_counterexample :
    (convert_example_to_features scenTok scenId
        ⟨"tokens-1", ["is", "nice"], ["O"]⟩ 8 scenVocab
        defaultConfig).isSome = true ∧
    (["is", "nice"] : List String).length ≠ (["O"] : List String).length := by
  decide

/-- C7 (amended): examples whose word and label counts differ are not
rejected: encoding silently pairs words with labels up to the shorter of
the two lengths, producing exactly the record of the example truncated to
the common prefix. -/
theorem C7_zip_truncation (tok : String → List String)
    (to_id : String → Int) (guid : String) (ts ls : List String) (msl : Nat)
    (ll : List String) (cfg : EncodeConfig) :
    convert_example_to_features tok to_id ⟨guid, ts, ls⟩ msl ll cfg =
      convert_example_to_features tok to_id
        ⟨guid, ts.take (min ts.length ls.length),
         ls.take (min ts.length ls.length)⟩ msl ll cfg := by
  simp only [convert_example_to_features, encodeSingle]
  rw [← zip_eq_zip_take_min ts ls]

/-- C8 (code bug): with `is_nested=True` and `y=None`,
`DataProcessor.get_examples` builds `labels = [["O"]*len(tokens)]`, a
single-element list, so the produced example violates the documented
invariant `len(tokens) == len(labels)`: for the 2-word input `[["a","b"]]`
the labels are `[["O","O"]]`, of length 1. -/
theorem C8_nested_invariant_broken :
    DataProcessor.get_examples_nested [["a", "b"]] none =
      [⟨"tokens-1", ["a", "b"], [["O", "O"]]⟩] ∧
    ([["O", "O"]] : List (List String)).length ≠
      (["a", "b"] : List String).length ∧
    DataProcessor.get_examples [["a", "b"]] none =
      [⟨"tokens-1", ["a", "b"], ["O", "O"]⟩] := by
  decide

/-- C9: a word that the tokenizer expands to zero pieces contributes
nothing: encoding the example containing it returns exactly the record of
the example with that word and its label removed. -/
theorem C9_zero_piece_word_dropped (tok : String → List String)
    (to_id : String → Int) (guid : String) (ws1 ws2 ls1 ls2 : List String)
    (w lab : String) (msl : Nat) (ll : List String) (cfg : EncodeConfig)
    (hlen : ws1.length = ls1.length) (hw : tok w = []) :
    convert_example_to_features tok to_id
        ⟨guid, ws1 ++ w :: ws2, ls1 ++ lab :: ls2⟩ msl ll cfg =
      convert_example_to_features tok to_id ⟨guid, ws1 ++ ws2, ls1 ++ ls2⟩
        msl ll cfg := by
  have hz1 : (ws1 ++ w :: ws2).zip (ls1 ++ lab :: ls2) =
      ws1.zip ls1 ++ (w, lab) :: ws2.zip ls2 := by
    rw [List.zip_append hlen]
    rfl
  have hz2 : (ws1 ++ ws2).zip (ls1 ++ ls2) = ws1.zip ls1 ++ ws2.zip ls2 :=
    List.zip_append hlen
  have hc : alignWords tok ll cfg.pad_token_label_id
      ((w, lab) :: ws2.zip ls2) =
      alignWords tok ll cfg.pad_token_label_id (ws2.zip ls2) := by
    simp [alignWords, hw]
  simp only [convert_example_to_features, encodeSingle]
  rw [hz1, hz2, alignWords_append, hc, ← alignWords_append]

/-- C9 witness: the empty word tokenizes to zero pieces, and the example
`(["is", "", "nice"], ["O", "B-LOC", "O"])` encodes exactly like
`(["is", "nice"], ["O", "O"])`. -/
theorem C9_zero_piece_word_dropped_witness :
    (["is"] : List String).length = (["O"] : List String).length ∧
    scenTok0 "" = [] ∧
    convert_example_to_features scenTok0 scenId
        ⟨"tokens-1", ["is"] ++ "" :: ["nice"], ["O"] ++ "B-LOC" :: ["O"]⟩ 8
        scenVocab defaultConfig =
      convert_example_to_features scenTok0 scenId
        ⟨"tokens-1", ["is"] ++ ["nice"], ["O"] ++ ["O"]⟩ 8 scenVocab
        defaultConfig :=
  ⟨rfl, rfl, C9_zero_piece_word_dropped scenTok0 scenId "tokens-1" ["is"]
    ["nice"] ["O"] ["O"] "" "B-LOC" 8 scenVocab defaultConfig rfl rfl⟩

/-- C10: the label vocabulary is `<PAD>`, `<START>`, then the
lexicographically sorted, deduplicated collection of the observed labels
(per-word label sets flattened in nested mode), then `<END>`; `<PAD>` sits
at index 0 and an empty corpus yields exactly the three sentinels. -/
theorem C10_label_vocabulary (L : List (List String))
    (N : List (List (List String))) :
    DataProcessor.get_labels L =
      ["<PAD>", "<START>"] ++ npUnique L.flatten ++ ["<END>"] ∧
    (npUnique L.flatten).Sorted (· < ·) ∧
    (npUnique L.flatten).Nodup ∧
    (∀ a, a ∈ npUnique L.flatten ↔ a ∈ L.flatten) ∧
    DataProcessor.get_labels_nested N =
      ["<PAD>", "<START>"] ++ npUnique N.flatten.flatten ++ ["<END>"] ∧
    (npUnique N.flatten.flatten).Sorted (· < ·) ∧
    (npUnique N.flatten.flatten).Nodup ∧
    (∀ a, a ∈ npUnique N.flatten.flatten ↔ a ∈ N.flatten.flatten) ∧
    (DataProcessor.get_labels L)[0]? = some "<PAD>" ∧
    DataProcessor.get_labels ([] : List (List String)) =
      ["<PAD>", "<START>", "<END>"] :=
  ⟨rfl, npUnique_sorted _, npUnique_nodup _, mem_npUnique _, rfl,
    npUnique_sorted _, npUnique_nodup _, mem_npUnique _, rfl, rfl⟩

end BertSk
